import Mathlib

/-!
Verification development for the JSGenerator repository
(`src/jsgenerator/utils.py`, `src/jsgenerator/generate.py`).

The Python pipeline extracts JavaScript examples from a package README,
generates further examples through a language model, validates each
candidate by executing it with `node` in a scratch directory copied from a
provisioned template, runs a single repair pass over the failures, and
writes the surviving examples to numbered files.

The embedding below models:
  * `run_shell` / `ShellError` (utils.py lines 99-146): a shell execution
    that either raises `ShellError` (catchable, carrying the stripped
    combined stdout/stderr transcript) on a non-zero exit status, or
    propagates a non-`ShellError` exception when `subprocess.Popen` itself
    fails to spawn `/bin/bash`.  Since `run_shell` always invokes the
    command through `/bin/bash` (`shell=True`), a missing `node`
    interpreter manifests as the shell completing with exit status 127,
    not as a spawn failure.
  * `filter_examples` (utils.py lines 178-199): the sequential validation
    loop, both as a classifier (`filter_examples`) and as a filesystem
    transition system (`filterExamplesFS`).
  * the fenced-code-block extraction of `generate.py` lines 77-80
    (pattern "```(?:js|javascript)\n(.*?)```", DOTALL) and
    `parse_examples` of utils.py lines 163-176 (pattern
    "```js?\n(.*?)```", DOTALL), both as instances of one generic
    left-to-right scanner differing only in the accepted opening fences.
  * the post-provisioning core of `generate_examples`
    (generate.py lines 77-134): candidate assembly, validation, the
    single repair pass, and the `example_<i>.js` write-out with the
    optional `only_var` rewriting of whole-word `const`/`let` to `var`.
-/

/-- Result of the operating system running one shell command: either the
shell process completed with an exit status and a combined stdout/stderr
transcript (stderr is merged into stdout by `run_shell`), or the process
could not be spawned at all (a non-`ShellError` exception from
`subprocess.Popen`, e.g. `/bin/bash` missing). -/
inductive ExecResult where
  | completed (exitCode : Nat) (transcript : String)
  | spawnFailure (msg : String)
  deriving DecidableEq, Repr

/-- The two kinds of exception that can leave `run_shell`
(utils.py lines 99-146): `ShellError` (raised on a non-zero exit status,
carrying the stripped transcript; caught by `filter_examples`) and any
other exception (propagated uncaught, aborting the caller). -/
inductive ExecError where
  | shellError (output : String)
  | fatal (msg : String)
  deriving DecidableEq, Repr

/-- Python `str.isspace` characters relevant to `str.strip()`. -/
def pyWS (c : Char) : Bool :=
  c = ' ' || c = '\t' || c = '\n' || c = '\r' || c = '\x0b' || c = '\x0c'

/-- Python `str.strip()` on a character list: drop leading and trailing
whitespace. -/
def pyStripL (l : List Char) : List Char :=
  ((l.dropWhile pyWS).reverse.dropWhile pyWS).reverse

/-- Python `str.strip()` (no arguments) on a string. -/
def pyStrip (s : String) : String :=
  ⟨pyStripL s.toList⟩

/-- `run_shell` (utils.py lines 112-146) with `check=True`, as used by
`filter_examples`: the captured transcript is joined and stripped
(`"".join(output).strip()`); a non-zero exit status raises
`ShellError(output, ...)`; a spawn failure propagates as a fatal
exception.  The behaviour of one execution is supplied by the oracle
`run`, keyed by the candidate text (the command is always
`node index.js` in a directory freshly determined by the candidate, so
the candidate text determines the execution). -/
def run_shell (run : String → ExecResult) (candidate : String) :
    Except ExecError String :=
  match run candidate with
  | .spawnFailure msg => .error (.fatal msg)
  | .completed code transcript =>
      if code ≠ 0 then .error (.shellError (pyStrip transcript))
      else .ok (pyStrip transcript)

/-- `filter_examples` (utils.py lines 178-199): for each candidate in
input order, reset the working directory from the template, write the
candidate as `index.js`, execute it, and classify it as valid on exit
status zero, invalid (paired with the `ShellError` diagnostic) otherwise.
A non-`ShellError` exception propagates, aborting the remaining batch.
The filesystem steps are modelled separately by `filterExamplesFS`; here
the execution oracle `run` stands for the whole reset-write-execute step
on one candidate. -/
def filter_examples (run : String → ExecResult) :
    List String → Except String (List String × List (String × String))
  | [] => .ok ([], [])
  | e :: rest =>
      match run_shell run e with
      | .ok _ =>
          match filter_examples run rest with
          | .ok (valid, invalid) => .ok (e :: valid, invalid)
          | .error msg => .error msg
      | .error (.shellError out) =>
          match filter_examples run rest with
          | .ok (valid, invalid) => .ok (valid, (e, out) :: invalid)
          | .error msg => .error msg
      | .error (.fatal msg) => .error msg

/-- The oracle reports that executing `e` completed (with some exit
status), i.e. the shell process could be spawned. -/
def completes (run : String → ExecResult) (e : String) : Bool :=
  match run e with
  | .completed _ _ => true
  | .spawnFailure _ => false

/-- The oracle reports exit status zero for `e`. -/
def passes (run : String → ExecResult) (e : String) : Bool :=
  match run e with
  | .completed 0 _ => true
  | _ => false

/-- The stripped transcript of executing `e` (meaningful when the
execution completed). -/
def diag (run : String → ExecResult) (e : String) : String :=
  match run e with
  | .completed _ transcript => pyStrip transcript
  | .spawnFailure msg => msg

/-- Characterization of `filter_examples` when every execution in the
batch completes: it returns the passing candidates and the failing
candidates paired with their stripped transcripts, each in input order. -/
theorem filter_examples_eq (run : String → ExecResult) (examples : List String)
    (h : ∀ e ∈ examples, completes run e = true) :
    filter_examples run examples =
      .ok (examples.filter (passes run),
           (examples.filter (fun e => !passes run e)).map
             (fun e => (e, diag run e))) := by
  induction examples with
  | nil => rfl
  | cons e rest ih =>
      have he : completes run e = true := h e (List.mem_cons_self e rest)
      have hrest : ∀ x ∈ rest, completes run x = true :=
        fun x hx => h x (List.mem_cons_of_mem e hx)
      have ih' := ih hrest
      cases hrun : run e with
      | spawnFailure msg => simp [completes, hrun] at he
      | completed code transcript =>
          cases code with
          | zero =>
              simp [filter_examples, run_shell, hrun, ih', passes, diag]
          | succ n =>
              simp [filter_examples, run_shell, hrun, ih', passes, diag]

/-- Taking the first components of the rejected pairs recovers the
rejected candidate texts. -/
theorem map_fst_map_diag (run : String → ExecResult) (l : List String) :
    (l.map (fun e => (e, diag run e))).map Prod.fst = l := by
  induction l with
  | nil => rfl
  | cons x xs ih => simp [ih]

/-- A concrete execution oracle used by witnesses: `console.log('ok')`
succeeds, everything else exits with status 1 and an error transcript. -/
def demoRun : String → ExecResult := fun e =>
  if e = "console.log('ok')" then .completed 0 "ok\n"
  else .completed 1 "  ReferenceError: foo is not defined\n"

/-- C1: for every input list whose executions all complete,
`filter_examples` returns a pair `(accepted, rejected)` with
`accepted.length + rejected.length` equal to the input length, and the
accepted texts together with the rejected texts form a permutation of the
input (every candidate in exactly one output, none dropped, none
duplicated); the empty input yields two empty outputs. -/
theorem C1_partition_totality (run : String → ExecResult) (examples : List String)
    (h : ∀ e ∈ examples, completes run e = true) :
    ∃ accepted rejected,
      filter_examples run examples = .ok (accepted, rejected) ∧
      accepted.length + rejected.length = examples.length ∧
      (accepted ++ rejected.map Prod.fst).Perm examples ∧
      filter_examples run [] = .ok ([], []) := by
  have hperm := List.filter_append_perm (fun e => passes run e) examples
  refine ⟨_, _, filter_examples_eq run examples h, ?_, ?_, rfl⟩
  · simpa [List.length_append, List.length_map] using hperm.length_eq
  · rw [map_fst_map_diag]
    exact hperm

/-- C1 witness: a concrete two-candidate batch where one candidate
passes and one fails. -/
theorem C1_partition_totality_witness :
    ∃ accepted rejected,
      filter_examples demoRun ["1/0", "console.log('ok')"] = .ok (accepted, rejected) ∧
      accepted.length + rejected.length = 2 ∧
      (accepted ++ rejected.map Prod.fst).Perm ["1/0", "console.log('ok')"] ∧
      filter_examples demoRun [] = .ok ([], []) :=
  C1_partition_totality demoRun ["1/0", "console.log('ok')"] (by decide)

/-- C2: for every input list whose executions all complete, the accepted
output of `filter_examples` is a sublist of the input (hence preserves the
input's relative order), and so is the list of rejected candidate texts. -/
theorem C2_order_preservation (run : String → ExecResult) (examples : List String)
    (h : ∀ e ∈ examples, completes run e = true) :
    ∃ accepted rejected,
      filter_examples run examples = .ok (accepted, rejected) ∧
      accepted.Sublist examples ∧
      (rejected.map Prod.fst).Sublist examples := by
  refine ⟨_, _, filter_examples_eq run examples h, List.filter_sublist examples, ?_⟩
  rw [map_fst_map_diag]
  exact List.filter_sublist examples

/-- C2 witness: the same concrete two-candidate batch. -/
theorem C2_order_preservation_witness :
    ∃ accepted rejected,
      filter_examples demoRun ["1/0", "console.log('ok')"] = .ok (accepted, rejected) ∧
      accepted.Sublist ["1/0", "console.log('ok')"] ∧
      (rejected.map Prod.fst).Sublist ["1/0", "console.log('ok')"] :=
  C2_order_preservation demoRun ["1/0", "console.log('ok')"] (by decide)

/-- C6: for every batch whose executions all complete, every candidate
whose execution exits with a non-zero status is classified Rejected with
diagnostic exactly the combined stdout/stderr transcript of that
execution trimmed of leading and trailing whitespace only; every
candidate whose execution exits with status zero is Accepted; and
conversely every rejected pair arose this way (non-zero exit, stripped
transcript as diagnostic). -/
theorem C6_diagnostic_content (run : String → ExecResult) (examples : List String)
    (h : ∀ e ∈ examples, completes run e = true) :
    ∃ accepted rejected,
      filter_examples run examples = .ok (accepted, rejected) ∧
      (∀ e ∈ examples, ∀ code transcript,
        run e = .completed code transcript → code ≠ 0 →
        (e, pyStrip transcript) ∈ rejected) ∧
      (∀ e ∈ examples, (∃ t, run e = .completed 0 t) → e ∈ accepted) ∧
      (∀ p ∈ rejected, ∃ code transcript,
        run p.1 = .completed code transcript ∧ code ≠ 0 ∧
        p.2 = pyStrip transcript) := by
  refine ⟨_, _, filter_examples_eq run examples h, ?_, ?_, ?_⟩
  · intro e hmem code transcript hrun hcode
    have hfail : passes run e = false := by
      cases code with
      | zero => exact absurd rfl hcode
      | succ n => simp [passes, hrun]
    have he : e ∈ examples.filter (fun e => !passes run e) :=
      List.mem_filter.mpr ⟨hmem, by simp [hfail]⟩
    have hmap : (e, diag run e) ∈
        (examples.filter (fun e => !passes run e)).map
          (fun e => (e, diag run e)) :=
      List.mem_map_of_mem _ he
    simpa [diag, hrun] using hmap
  · intro e hmem ⟨t, ht⟩
    exact List.mem_filter.mpr ⟨hmem, by simp [passes, ht]⟩
  · intro p hp
    rcases List.mem_map.mp hp with ⟨e, he, rfl⟩
    rcases List.mem_filter.mp he with ⟨hmem, hfail⟩
    have hc : completes run e = true := h e hmem
    have hc' : ∃ code t, run e = .completed code t := by
      cases hrun : run e with
      | completed c t => exact ⟨c, t, rfl⟩
      | spawnFailure m => simp [completes, hrun] at hc
    rcases hc' with ⟨code, transcript, hrun⟩
    refine ⟨code, transcript, hrun, ?_, ?_⟩
    · intro hcode
      subst hcode
      simp [passes, hrun] at hfail
    · simp [diag, hrun]

/-- C6 witness: the non-zero-exit candidate is rejected with the stripped
transcript as diagnostic, and the passing candidate is accepted. -/
theorem C6_diagnostic_content_witness :
    ∃ accepted rejected,
      filter_examples demoRun ["1/0", "console.log('ok')"] = .ok (accepted, rejected) ∧
      (∀ e ∈ ["1/0", "console.log('ok')"], ∀ code transcript,
        demoRun e = .completed code transcript → code ≠ 0 →
        (e, pyStrip transcript) ∈ rejected) ∧
      (∀ e ∈ ["1/0", "console.log('ok')"],
        (∃ t, demoRun e = .completed 0 t) → e ∈ accepted) ∧
      (∀ p ∈ rejected, ∃ code transcript,
        demoRun p.1 = .completed code transcript ∧ code ≠ 0 ∧
        p.2 = pyStrip transcript) :=
  C6_diagnostic_content demoRun ["1/0", "console.log('ok')"] (by decide)

/-- C3 counterexample: `run_shell` invokes every command through
`/bin/bash` (`shell=True`), so a missing `node` interpreter is reported by
the shell as exit status 127 — a `ShellError`, which `filter_examples`
catches and records as a normal per-candidate rejection instead of
aborting.  The claim that interpreter-not-found raises a fatal error out
of `filter_examples` is therefore false. -/
theorem C3_counterexample :
    filter_examples (fun _ => .completed 127 "bash: line 1: node: command not found\n")
      ["console.log(1)"] =
      .ok ([], [("console.log(1)", "bash: line 1: node: command not found")]) := by
  rfl

/-- C3 amended: only a failure of the shell process spawn itself (a
non-`ShellError` exception from `subprocess.Popen`, e.g. `/bin/bash`
missing) is fatal: it propagates out of `filter_examples`, aborting
validation of the remaining candidates in the batch. -/
theorem C3_spawn_failure_fatal (run : String → ExecResult)
    (pre post : List String) (e : String) (msg : String)
    (hpre : ∀ x ∈ pre, completes run x = true)
    (he : run e = .spawnFailure msg) :
    filter_examples run (pre ++ e :: post) = .error msg := by
  induction pre with
  | nil => simp [filter_examples, run_shell, he]
  | cons x rest ih =>
      have hx : completes run x = true := hpre x (List.mem_cons_self x rest)
      have hrest := ih (fun y hy => hpre y (List.mem_cons_of_mem x hy))
      cases hrun : run x with
      | spawnFailure m => simp [completes, hrun] at hx
      | completed code transcript =>
          cases code with
          | zero => simp [filter_examples, run_shell, hrun, hrest]
          | succ n => simp [filter_examples, run_shell, hrun, hrest]

/-- A concrete oracle for the C3 witness: the second candidate's shell
process fails to spawn. -/
def spawnFailRun : String → ExecResult := fun e =>
  if e = "console.log(2)" then .spawnFailure "FileNotFoundError"
  else .completed 0 "ok\n"

/-- C3 witness: a spawn failure on the middle candidate aborts the whole
batch with the fatal message. -/
theorem C3_spawn_failure_fatal_witness :
    filter_examples spawnFailRun ["console.log(1)", "console.log(2)", "console.log(3)"] =
      .error "FileNotFoundError" :=
  C3_spawn_failure_fatal spawnFailRun ["console.log(1)"] ["console.log(3)"]
    "console.log(2)" "FileNotFoundError" (by decide) (by decide)

/-- The closing fence of both Python patterns: three backticks. -/
def closeFence : List Char := ['`', '`', '`']

/-- The opening fence accepted by both patterns. -/
def tagJs : List Char := ("```js\n").toList

/-- The opening fence accepted only by the README extraction's regex
alternative `javascript`. -/
def tagJavascript : List Char := ("```javascript\n").toList

/-- The opening fence accepted only by `parse_examples`, whose regex
"```js?" makes the `s` optional. -/
def tagBareJ : List Char := ("```j\n").toList

/-- The opening fences recognized by the README extraction in
`generate_examples` (generate.py lines 77-80), regex
"```(?:js|javascript)\n(.*?)```": a literal "```js\n" or
"```javascript\n".  The alternatives are mutually exclusive at any
position, so the regex engine's try-order does not matter. -/
def fenceOpenReadme : List (List Char) := [tagJs, tagJavascript]

/-- The opening fences recognized by `parse_examples`
(utils.py lines 163-176), regex "```js?\n(.*?)```": the optional "s"
makes this a literal "```js\n" or "```j\n".  The alternatives are
mutually exclusive at any position. -/
def fenceOpenParse : List (List Char) := [tagJs, tagBareJ]

/-- Try each opening fence at the current position; on the first that
matches, return the remainder after it. -/
def matchOpen : List (List Char) → List Char → Option (List Char)
  | [], _ => none
  | o :: os, s => if o.isPrefixOf s then some (s.drop o.length) else matchOpen os s

/-- Scan left to right for the first position where an opening fence
matches; return the remainder after the fence (the regex engine's
leftmost-match rule). -/
def findOpen (openers : List (List Char)) : List Char → Option (List Char)
  | [] => none
  | c :: rest =>
      match matchOpen openers (c :: rest) with
      | some r => some r
      | none => findOpen openers rest

/-- Split at the first occurrence of the closing fence: return the text
before it and the remainder after it (the lazy "(.*?)" takes the shortest
body ending at the next "```"). -/
def splitClose : List Char → Option (List Char × List Char)
  | [] => none
  | c :: rest =>
      if closeFence.isPrefixOf (c :: rest) then some ([], rest.drop 2)
      else
        match splitClose rest with
        | some (body, r) => some (c :: body, r)
        | none => none

/-- `re.findall` of a fenced-code-block pattern with `re.DOTALL`:
repeatedly take the leftmost opening fence, the shortest body up to the
next closing fence, strip the body, and continue after the closing
fence.  If no closing fence follows the leftmost opening fence, no
further match exists (the remaining text is a suffix, so later openers
see even less text).  Fuel bounds the recursion; each step consumes at
least the opening fence, so an initial fuel of the text length
suffices. -/
def extractBlocks (openers : List (List Char)) : Nat → List Char → List (List Char)
  | 0, _ => []
  | fuel + 1, s =>
      match findOpen openers s with
      | none => []
      | some afterOpen =>
          match splitClose afterOpen with
          | none => []
          | some (body, rest) => pyStripL body :: extractBlocks openers fuel rest

/-- The README extraction of `generate_examples` (generate.py lines
77-80): `re.findall(r"```(?:js|javascript)\n(.*?)```", readme,
flags=re.DOTALL)` followed by `.strip()` on each match. -/
def readme_extract (s : String) : List String :=
  (extractBlocks fenceOpenReadme s.toList.length s.toList).map fun l => ⟨l⟩

/-- `parse_examples` (utils.py lines 163-176):
`re.findall(r"```js?\n(.*?)```", response, flags=re.DOTALL)` followed by
`.strip()` on each match. -/
def parse_examples (s : String) : List String :=
  (extractBlocks fenceOpenParse s.toList.length s.toList).map fun l => ⟨l⟩

/-- C4 counterexample: on a response consisting of one fenced block
tagged `javascript`, the README extraction of `generate_examples` yields
the block body but `parse_examples` (whose regex "```js?" only accepts
the tags "js" and "j") yields nothing — the two are not the same
routine. -/
theorem C4_counterexample :
    readme_extract "```javascript\nconsole.log(1)\n```" = ["console.log(1)"] ∧
    parse_examples "```javascript\nconsole.log(1)\n```" = [] ∧
    parse_examples "```j\nconsole.log(2)\n```" = ["console.log(2)"] ∧
    readme_extract "```j\nconsole.log(2)\n```" = [] := by
  refine ⟨?_, ?_, ?_, ?_⟩ <;> rfl

/-- No position of the text starts one of the two fences on which the
README pattern and the `parse_examples` pattern disagree
("```javascript\n", accepted only by the former, and "```j\n", accepted
only by the latter).  Texts whose fences are all tagged exactly `js`
satisfy this. -/
def noTagDivergence : List Char → Bool
  | [] => true
  | c :: rest =>
      !(tagJavascript.isPrefixOf (c :: rest)) &&
      !(tagBareJ.isPrefixOf (c :: rest)) &&
      noTagDivergence rest

/-- At a position starting neither divergent fence, the two opener sets
match identically. -/
theorem matchOpen_agree (s : List Char)
    (h1 : tagJavascript.isPrefixOf s = false)
    (h2 : tagBareJ.isPrefixOf s = false) :
    matchOpen fenceOpenReadme s = matchOpen fenceOpenParse s := by
  simp [matchOpen, fenceOpenReadme, fenceOpenParse, h1, h2]

/-- In a text without divergent fences, both patterns find their leftmost
opening fence at the same place. -/
theorem findOpen_agree (s : List Char) (h : noTagDivergence s = true) :
    findOpen fenceOpenReadme s = findOpen fenceOpenParse s := by
  induction s with
  | nil => rfl
  | cons c rest ih =>
      rw [noTagDivergence] at h
      simp only [Bool.and_eq_true, Bool.not_eq_true'] at h
      obtain ⟨⟨h1, h2⟩, h3⟩ := h
      rw [findOpen, findOpen, matchOpen_agree (c :: rest) h1 h2]
      cases hm : matchOpen fenceOpenParse (c :: rest) with
      | some r => rfl
      | none => simpa using ih h3

/-- matchOpen only drops characters from the front. -/
theorem matchOpen_suffix {openers : List (List Char)} {s r : List Char}
    (h : matchOpen openers s = some r) : r <:+ s := by
  induction openers with
  | nil => simp [matchOpen] at h
  | cons o os ih =>
      rw [matchOpen] at h
      by_cases hp : o.isPrefixOf s
      · simp [hp] at h
        exact h ▸ List.drop_suffix o.length s
      · simp [hp] at h
        exact ih h

/-- The remainder after the leftmost opening fence is a suffix of the
text. -/
theorem findOpen_suffix {openers : List (List Char)} {s r : List Char}
    (h : findOpen openers s = some r) : r <:+ s := by
  induction s with
  | nil => simp [findOpen] at h
  | cons c rest ih =>
      rw [findOpen] at h
      cases hm : matchOpen openers (c :: rest) with
      | some r' =>
          rw [hm] at h
          cases h
          exact matchOpen_suffix hm
      | none =>
          rw [hm] at h
          exact (ih h).trans (List.suffix_cons c rest)

/-- The remainder after the closing fence is a suffix of the text. -/
theorem splitClose_suffix {s body r : List Char}
    (h : splitClose s = some (body, r)) : r <:+ s := by
  induction s generalizing body with
  | nil => simp [splitClose] at h
  | cons c rest ih =>
      rw [splitClose] at h
      by_cases hp : closeFence.isPrefixOf (c :: rest)
      · simp [hp] at h
        exact h.2 ▸ ((List.drop_suffix 2 rest).trans (List.suffix_cons c rest))
      · simp [hp] at h
        cases hs : splitClose rest with
        | none => rw [hs] at h; cases h
        | some br =>
            obtain ⟨b, r'⟩ := br
            rw [hs] at h
            obtain ⟨-, rfl⟩ := h
            exact (ih hs).trans (List.suffix_cons c rest)

/-- `noTagDivergence` restricts to every suffix. -/
theorem noTagDivergence_suffix {s t : List Char} (hs : t <:+ s)
    (h : noTagDivergence s = true) : noTagDivergence t = true := by
  induction s with
  | nil => simpa [List.suffix_nil.mp hs]
  | cons c rest ih =>
      rw [noTagDivergence] at h
      simp only [Bool.and_eq_true] at h
      rcases List.suffix_cons_iff.mp hs with rfl | hs'
      · rw [noTagDivergence]
        simp [h.1.1, h.1.2, h.2]
      · exact ih hs' h.2

/-- On texts without divergent fences the generic scanner behaves
identically for the two opener sets. -/
theorem extractBlocks_agree (fuel : Nat) (s : List Char)
    (h : noTagDivergence s = true) :
    extractBlocks fenceOpenReadme fuel s = extractBlocks fenceOpenParse fuel s := by
  induction fuel generalizing s with
  | zero => rfl
  | succ fuel ih =>
      rw [extractBlocks, extractBlocks, findOpen_agree s h]
      cases hfo : findOpen fenceOpenParse s with
      | none => rfl
      | some afterOpen =>
          have hafter : noTagDivergence afterOpen = true :=
            noTagDivergence_suffix (findOpen_suffix hfo) h
          cases hsc : splitClose afterOpen with
          | none => simp [hsc]
          | some br =>
              obtain ⟨body, rest⟩ := br
              have hrest : noTagDivergence rest = true :=
                noTagDivergence_suffix
                  ((splitClose_suffix hsc).trans (findOpen_suffix hfo)) h
              simp [hsc, ih rest hrest]

/-- C4 amended: the README extraction of `generate_examples` and
`parse_examples` are not the same routine (see the counterexample:
README extraction also accepts the `javascript` tag, `parse_examples`
also accepts the bare `j` tag), but they implement the same generic
left-to-right fence scanner and agree on every text containing no
occurrence of "```javascript\n" and no occurrence of "```j\n" — in
particular on every text whose fences are all tagged exactly `js`. -/
theorem C4_fence_extraction_agree (s : String)
    (h : noTagDivergence s.toList = true) :
    readme_extract s = parse_examples s := by
  unfold readme_extract parse_examples
  rw [extractBlocks_agree s.toList.length s.toList h]

/-- C4 witness: a concrete response with two `js`-tagged fences, on which
the two extraction routines agree. -/
theorem C4_fence_extraction_agree_witness :
    noTagDivergence ("```js\nfoo()\n```\ntext\n```js\nbar()\n```").toList = true ∧
    readme_extract "```js\nfoo()\n```\ntext\n```js\nbar()\n```" =
      parse_examples "```js\nfoo()\n```\ntext\n```js\nbar()\n```" :=
  ⟨by decide, C4_fence_extraction_agree _ (by decide)⟩

/-- The top-level attribute names of the module `jsgenerator.utils`
(src/jsgenerator/utils.py): its own imports (lines 1-8) followed by its
definitions.  Neither `clone_repository` nor `get_main` is among them. -/
def utilsModuleAttrs : List String :=
  ["re", "shutil", "subprocess", "requests", "Optional", "urlparse", "Path",
   "utils", "prebuilt",
   "get_url", "get_readme", "print_examples", "ShellError", "run_shell",
   "create_dir", "parse_examples", "filter_examples"]

/-- The names that `src/jsgenerator/generate.py` line 6 imports from
`jsgenerator.utils`. -/
def generateUtilsImports : List String :=
  ["clone_repository", "get_url", "get_readme", "get_main", "create_dir",
   "parse_examples", "run_shell", "filter_examples"]

/-- Python `from module import a, b, ...`: binds each name in order and
raises `ImportError` at the first name that is not an attribute of the
module, so the importing module never finishes loading and none of its
functions can be called. -/
def resolveFromImport (moduleAttrs names : List String) : Except String Unit :=
  match names.find? (fun n => !moduleAttrs.contains n) with
  | some missing => .error missing
  | none => .ok ()

/-- C5: the import on generate.py line 6 fails — `clone_repository` (and
also `get_main`) is not defined in `jsgenerator.utils` — so loading the
module raises `ImportError` and `generate_examples` can never be called,
for any package name or argument combination. -/
theorem C5_import_failure :
    resolveFromImport utilsModuleAttrs generateUtilsImports =
      .error "clone_repository" ∧
    "clone_repository" ∉ utilsModuleAttrs ∧
    "get_main" ∉ utilsModuleAttrs :=
  ⟨rfl, by decide, by decide⟩

/-- Python regex word characters (ASCII fragment): the `\b` boundaries of
`\bconst\b` and `\blet\b` (generate.py lines 131-132) separate word from
non-word characters. -/
def isWordChar (c : Char) : Bool := c.isAlpha || c.isDigit || c = '_'

/-- `re.sub(r"\b<w>\b", r, s)` for a non-empty word `w` of word
characters: scan left to right; at a position not preceded by a word
character where `w` occurs and is not followed by a word character,
emit the replacement and continue after the occurrence (non-overlapping
matches); otherwise copy one character.  `prevWord` records whether the
previously consumed original character is a word character; fuel bounds
the recursion (one unit per step, each step consuming at least one
character, so the text length suffices). -/
def subWordAux (w r : List Char) : Bool → Nat → List Char → List Char
  | _, 0, s => s
  | _, _ + 1, [] => []
  | prevWord, fuel + 1, c :: rest =>
      if !prevWord && w.isPrefixOf (c :: rest) &&
          (match (c :: rest).drop w.length with
           | [] => true
           | d :: _ => !isWordChar d) then
        r ++ subWordAux w r
          (match w.getLast? with
           | some d => isWordChar d
           | none => prevWord)
          fuel ((c :: rest).drop w.length)
      else
        c :: subWordAux w r (isWordChar c) fuel rest

/-- `re.sub(r"\b<w>\b", r, s)` on strings; at the start of the string a
word boundary holds before any word character. -/
def pySubWord (w r s : String) : String :=
  ⟨subWordAux w.toList r.toList false s.toList.length s.toList⟩

/-- The `only_var` rewriting of generate.py lines 130-132: replace every
whole-word `const` by `var`, then every whole-word `let` by `var`. -/
def onlyVarRewrite (s : String) : String :=
  pySubWord "let" "var" (pySubWord "const" "var" s)

/-- The write-out loop of `generate_examples` (generate.py lines
129-134): the i-th surviving example (zero-based, final order) is
written to `example_<i>.js`, rewritten by `onlyVarRewrite` when
`only_var` is set. -/
def writeFiles (only_var : Bool) (examples : List String) :
    List (String × String) :=
  examples.enum.map (fun p =>
    ("example_" ++ toString p.1 ++ ".js",
     if only_var then onlyVarRewrite p.2 else p.2))

/-- The external collaborators of the `generate_examples` core: the
README text obtained for the package (if any), the generation-phase and
repair-phase responses of the language model, and the execution
behaviour of `node` on each candidate. -/
structure Collaborators where
  readme : Option String
  genResponse : String
  fixResponse : String
  run : String → ExecResult

/-- The candidate list assembled by generate.py lines 77-103: the
README's `js`/`javascript` fenced blocks when `extract` is set and a
README exists, followed by the blocks parsed from the model's
generation response when `generate` is set. -/
def initialExamples (extract generate : Bool) (c : Collaborators) :
    List String :=
  (if extract then
    (match c.readme with
     | some r => readme_extract r
     | none => []) else [])
  ++ (if generate then parse_examples c.genResponse else [])

/-- Observable outcome of the post-provisioning core of
`generate_examples`: the files written, and — instrumenting the repair
phase — how many model calls and how many validation passes the repair
phase performed. -/
structure PipelineResult where
  files : List (String × String)
  repairGeneratorCalls : Nat
  repairValidationPasses : Nat
  deriving DecidableEq, Repr

/-- The post-provisioning core of `generate_examples` (generate.py lines
77-134): assemble candidates, validate them, and — only when `fix` is
set and some candidate failed — issue exactly one further model call
(the repair prompt built from all failed pairs) and exactly one further
validation pass over the parsed repair response, keeping only its
accepted examples; finally write the surviving examples out.  A fatal
(non-`ShellError`) validation error propagates. -/
def generate_examples_core (extract generate fix only_var : Bool)
    (c : Collaborators) : Except String PipelineResult :=
  match filter_examples c.run (initialExamples extract generate c) with
  | .error msg => .error msg
  | .ok (accepted, failed) =>
      if fix && !failed.isEmpty then
        match filter_examples c.run (parse_examples c.fixResponse) with
        | .error msg => .error msg
        | .ok (fixAccepted, _) =>
            .ok { files := writeFiles only_var (accepted ++ fixAccepted),
                  repairGeneratorCalls := 1,
                  repairValidationPasses := 1 }
      else
        .ok { files := writeFiles only_var accepted,
              repairGeneratorCalls := 0,
              repairValidationPasses := 0 }

/-- C7: whenever validation leaves a non-empty failed set and `fix` is
enabled, the repair phase performs exactly one further model call and
exactly one further validation pass — however many repaired candidates
still fail — and the final written set is the originally accepted
examples followed by exactly the accepted examples of that single
re-validation; candidates rejected by the re-validation are dropped and
never re-submitted. -/
theorem C7_single_pass_repair (extract generate only_var : Bool)
    (c : Collaborators) (accepted : List String)
    (failed : List (String × String)) (fixAccepted : List String)
    (fixRejected : List (String × String))
    (h1 : filter_examples c.run (initialExamples extract generate c) =
      .ok (accepted, failed))
    (h2 : failed ≠ [])
    (h3 : filter_examples c.run (parse_examples c.fixResponse) =
      .ok (fixAccepted, fixRejected)) :
    generate_examples_core extract generate true only_var c =
      .ok { files := writeFiles only_var (accepted ++ fixAccepted),
            repairGeneratorCalls := 1,
            repairValidationPasses := 1 } := by
  cases failed with
  | nil => exact absurd rfl h2
  | cons f fs => simp [generate_examples_core, h1, h3]

/-- A concrete collaborator set for the repair witnesses: the model's
generation response holds one failing and one passing candidate, and its
repair response holds one passing candidate. -/
def demoCollab : Collaborators :=
  { readme := none
    genResponse := "```js\n1/0\n```\n\n```js\nconsole.log('ok')\n```"
    fixResponse := "```js\nconsole.log('ok')\n```"
    run := demoRun }

/-- C7 witness: with one failed candidate, the repair phase makes one
model call and one validation pass and appends the repaired accepted
example. -/
theorem C7_single_pass_repair_witness :
    generate_examples_core false true true false demoCollab =
      .ok { files := writeFiles false
              (["console.log('ok')"] ++ ["console.log('ok')"]),
            repairGeneratorCalls := 1,
            repairValidationPasses := 1 } :=
  C7_single_pass_repair false true false demoCollab
    ["console.log('ok')"] [("1/0", "ReferenceError: foo is not defined")]
    ["console.log('ok')"] [] rfl (by decide) rfl

/-- C8: when validation rejects nothing, the repair phase — even with
`fix` enabled — makes zero model calls, performs zero further validation
passes, and adds nothing: the written set is exactly the accepted
examples. -/
theorem C8_repair_noop (extract generate fix only_var : Bool)
    (c : Collaborators) (accepted : List String)
    (h1 : filter_examples c.run (initialExamples extract generate c) =
      .ok (accepted, [])) :
    generate_examples_core extract generate fix only_var c =
      .ok { files := writeFiles only_var accepted,
            repairGeneratorCalls := 0,
            repairValidationPasses := 0 } := by
  simp [generate_examples_core, h1]

/-- A collaborator set whose only candidate passes validation. -/
def demoCollabAllPass : Collaborators :=
  { readme := none
    genResponse := "```js\nconsole.log('ok')\n```"
    fixResponse := "```js\nconsole.log('ok')\n```"
    run := demoRun }

/-- C8 witness: with an empty rejected set and `fix` enabled, the repair
phase is a no-op. -/
theorem C8_repair_noop_witness :
    generate_examples_core false true true false demoCollabAllPass =
      .ok { files := writeFiles false ["console.log('ok')"],
            repairGeneratorCalls := 0,
            repairValidationPasses := 0 } :=
  C8_repair_noop false true true false demoCollabAllPass
    ["console.log('ok')"] rfl

/-- C10: the file written for the finally-accepted example at zero-based
index i is named `example_<i>.js`; its content is the example text
verbatim when `only_var` is false, and the example with every whole-word
`const` and `let` replaced by `var` when `only_var` is true — so the
persisted file can differ from the validated text (the rewriting changes
`const x = 1;` while leaving non-whole-word occurrences such as
`constant` or `letter` untouched). -/
theorem C10_persisted_text (only_var : Bool) (examples : List String)
    (i : Nat) (e : String) (h : examples[i]? = some e) :
    (writeFiles only_var examples)[i]? =
      some ("example_" ++ toString i ++ ".js",
            if only_var then onlyVarRewrite e else e) ∧
    onlyVarRewrite "const x = 1;\nlet y = x;" = "var x = 1;\nvar y = x;" ∧
    onlyVarRewrite "constant letter" = "constant letter" := by
  refine ⟨?_, rfl, rfl⟩
  simp [writeFiles, List.getElem?_map, List.getElem?_enum, h]

/-- C10 witness: at index 1 of a concrete two-example list, with
`only_var` enabled the persisted content differs from the validated
text. -/
theorem C10_persisted_text_witness :
    (writeFiles true ["console.log('ok')", "const x = 1;\nlet y = x;"])[1]? =
      some ("example_" ++ toString 1 ++ ".js",
            if true then onlyVarRewrite "const x = 1;\nlet y = x;"
            else "const x = 1;\nlet y = x;") ∧
    onlyVarRewrite "const x = 1;\nlet y = x;" = "var x = 1;\nvar y = x;" ∧
    onlyVarRewrite "constant letter" = "constant letter" :=
  C10_persisted_text true ["console.log('ok')", "const x = 1;\nlet y = x;"]
    1 "const x = 1;\nlet y = x;" rfl

/-- A directory's contents as a list of (file name, file content)
pairs. -/
def Files := List (String × String)

/-- `Path.write_text`: (re)place one file in a directory. -/
def write_text (files : Files) (name content : String) : Files :=
  (name, content) :: List.filter (fun f => f.1 ≠ name) files

/-- `create_dir(dir_path, src_path)` with the default `remove=True`
(utils.py lines 148-161): `shutil.rmtree` empties the destination, then
`shutil.copytree` copies the source's contents in full, so the
destination becomes exactly the source; the source is only read. -/
def create_dir (src : Files) : Files := src

/-- The filesystem state owned by the Execution Validator: the
provisioned template directory and the scratch project (working)
directory. -/
structure ValidatorFS where
  template : Files
  project : Files

/-- The filesystem behaviour of one candidate's execution: the oracle
`run` says whether and how the `node` subprocess ran, and `effect` is
whatever mutation that execution performs on the working directory it is
given as current working directory (the code constrains it in no
way). -/
structure ExecModel where
  run : String → ExecResult
  effect : String → Files → Files

/-- The filesystem view of the `filter_examples` loop (utils.py lines
187-199): for each candidate, `create_dir(project_path, template_path)`
resets the project directory to the template's contents, the candidate
is written as `index.js`, and `node index.js` runs with the project as
current working directory (possibly mutating it).  A spawn failure
propagates, aborting the loop.  Returns the final filesystem state and,
for each execution attempted, the project directory's contents at the
moment the execution starts. -/
def filterExamplesFS (m : ExecModel) : List String → ValidatorFS →
    ValidatorFS × List Files
  | [], fs => (fs, [])
  | e :: rest, fs =>
      let reset : ValidatorFS := { fs with project := create_dir fs.template }
      let written : ValidatorFS :=
        { reset with project := write_text reset.project "index.js" e }
      match m.run e with
      | .spawnFailure _ => (written, [written.project])
      | .completed _ _ =>
          let afterRun : ValidatorFS :=
            { written with project := m.effect e written.project }
          let (finalFS, snaps) := filterExamplesFS m rest afterRun
          (finalFS, written.project :: snaps)

/-- The prefix of the batch whose executions are attempted: everything
up to and including the first candidate whose subprocess fails to
spawn. -/
def attempted (run : String → ExecResult) : List String → List String
  | [] => []
  | e :: rest =>
      match run e with
      | .spawnFailure _ => [e]
      | .completed _ _ => e :: attempted run rest

/-- C9: before every candidate execution the working directory has been
reset to exactly the template's contents plus the candidate written as
`index.js` — independent of the prior working-directory contents and of
any filesystem mutation earlier executions performed — and the template
directory itself is unchanged when the loop ends. -/
theorem C9_environment_isolation (m : ExecModel) (examples : List String)
    (fs : ValidatorFS) :
    (filterExamplesFS m examples fs).2 =
      (attempted m.run examples).map
        (fun e => write_text (create_dir fs.template) "index.js" e) ∧
    (filterExamplesFS m examples fs).1.template = fs.template := by
  induction examples generalizing fs with
  | nil => exact ⟨rfl, rfl⟩
  | cons e rest ih =>
      cases hrun : m.run e with
      | spawnFailure msg =>
          simp [filterExamplesFS, attempted, hrun]
      | completed code transcript =>
          have ih' := ih { template := fs.template,
                           project := m.effect e
                             (write_text (create_dir fs.template) "index.js" e) }
          simp only [filterExamplesFS, attempted, hrun, List.map_cons]
          exact ⟨by simp [ih'.1], by simp [ih'.2]⟩
